import Mathlib

/-!
Shallow embedding of the collage editor component
(src/src/components/CollageEditor.tsx) of the Mattews08/editor-vite-react
repository, together with theorems settling the frozen claims about it.

Modelling conventions:
* JavaScript floating-point numbers are modelled as rationals (ℚ); the
  arithmetic performed by the component (add, subtract, multiply, divide,
  min, max, abs, round, clamp) is exact on the inputs the claims use.
  The one transcendental, Math.exp in the wheel handler, is modelled by
  passing the already-computed positive factor as a parameter.
* React state cells (useState) and refs (useRef) are gathered into one
  explicit record, EState.  Each event handler is translated as a function
  EState → EState executing the handler's statements in order.  Between two
  browser events React has flushed all queued updates, so sequential state
  passing agrees with the browser for the event sequences verified here
  (each handler's snapshot() calls happen before that handler mutates any
  serialized field).
* crypto.randomUUID() is modelled by a deterministic fresh-id counter
  (only the uniqueness of ids matters, not their value).
* HTMLImageElement is modelled as an Img record carrying the src string and
  the decoded pixel dimensions; a data URL determines its decoded raster,
  so serializing the src and re-decoding preserves the dimensions.
* Canvas coordinates are taken relative to the canvas (rect.left = rect.top
  = 0), which only renames the screen coordinate system.
-/

namespace Collage

/-- A 2-d point, world or screen coordinates (TS type Vec2). -/
structure Vec2 where
  x : ℚ
  y : ℚ
deriving DecidableEq

/-- An axis-aligned rectangle given by origin and extent, as the component
uses for crop boxes, crop sources and layer rectangles. -/
structure Rect where
  x : ℚ
  y : ℚ
  w : ℚ
  h : ℚ
deriving DecidableEq

/-- TS type FillMode = "stroke" | "fill" | "both". -/
inductive FillMode where
  | stroke
  | fill
  | both
deriving DecidableEq

/-- TS type Tool. -/
inductive Tool where
  | pencil
  | eraser
  | line
  | rect
  | ellipse
  | polygon
  | arrow
  | crop
  | move
deriving DecidableEq

/-- The kind tag of a draw object. -/
inductive DKind where
  | path
  | line
  | rect
  | ellipse
  | polygon
  | arrow
deriving DecidableEq

/-- Corner handles used for layer resize and crop boxes. -/
inductive Handle where
  | nw
  | ne
  | se
  | sw
deriving DecidableEq

/-- The two endpoint handles of a line or arrow. -/
inductive AB where
  | a
  | b
deriving DecidableEq

/-- An HTMLImageElement, abstracted to its src reference and decoded
dimensions (img.width, img.height). -/
structure Img where
  src : String
  width : ℚ
  height : ℚ
deriving DecidableEq

/-- TS type ImgLayer.  The optional selected flag is normalised to a Bool
(undefined behaves as false everywhere the component reads it). -/
structure Layer where
  id : String
  img : Img
  x : ℚ
  y : ℚ
  w : ℚ
  h : ℚ
  crop : Option Rect := none
  selected : Bool := false
deriving DecidableEq

/-- TS type DrawObj.  The TS source declares DrawBase with an index
signature ([k: string]: any) and each variant adds points or a/b on top of
it; the embedding keeps one record with all fields present, defaulted,
which matches the dynamic records the component actually builds (moveObj
and the pencil branch freely read and write these fields on any kind). -/
structure DrawObj where
  id : String
  kind : DKind
  stroke : String
  fill : String
  fillMode : FillMode
  thickness : ℚ
  dashed : Bool
  selected : Bool := false
  eraser : Bool := false
  points : List Vec2 := []
  a : Vec2 := ⟨0, 0⟩
  b : Vec2 := ⟨0, 0⟩
deriving DecidableEq

/-- One serialized layer, exactly the fields serializeLayers emits:
{id, x, y, w, h, crop, src}. -/
structure SerLayer where
  id : String
  x : ℚ
  y : ℚ
  w : ℚ
  h : ℚ
  crop : Option Rect
  img : Img
deriving DecidableEq

/-- One undo/redo snapshot: the JSON object
{layers: serializeLayers(layers), draws, scale, offset}. -/
structure Snap where
  layers : List SerLayer
  draws : List DrawObj
  scale : ℚ
  offset : Vec2
deriving DecidableEq

/-- cropDragRef payload. -/
structure CropDrag where
  start : Vec2
  box : Rect
  handle : Handle
deriving DecidableEq

/-- The untyped movingRef.orig slot (a draw object or a layer). -/
inductive MovingOrig where
  | draw (d : DrawObj)
  | layer (l : Layer)
deriving DecidableEq

/-- movingRef payload. -/
structure MovingRef where
  start : Vec2
  orig : MovingOrig
deriving DecidableEq

/-- handleDragRef payload. -/
structure HandleDragRef where
  drawId : String
  handle : AB
deriving DecidableEq

/-- layerResizeRef payload. -/
structure LayerResizeRef where
  layerId : String
  handle : Handle
  start : Vec2
  orig : Rect
  keepRatio : Bool
deriving DecidableEq

/-- The whole component state: every useState cell and useRef cell the
interaction logic reads or writes.  Defaults are the component's initial
values. -/
structure EState where
  layers : List Layer := []
  draws : List DrawObj := []
  scale : ℚ := 1
  offset : Vec2 := ⟨0, 0⟩
  selectedLayerId : Option String := none
  selectedDrawId : Option String := none
  polyTemp : List Vec2 := []
  undoStack : List Snap := []
  redoStack : List Snap := []
  tool : Tool := Tool.pencil
  thickness : ℚ := 6
  primary : String := "#000000"
  secondary : String := "#ffffff"
  fillMode : FillMode := FillMode.stroke
  strokeDashed : Bool := false
  dragStart : Option Vec2 := none
  lastMove : Option Vec2 := none
  draft : Option DrawObj := none
  cropBox : Option Rect := none
  cropDrag : Option CropDrag := none
  moving : Option MovingRef := none
  handleDrag : Option HandleDragRef := none
  layerResize : Option LayerResizeRef := none
  panning : Bool := false
  panLast : Vec2 := ⟨0, 0⟩
  nextId : Nat := 0
deriving DecidableEq

/-- function clamp(v, a, b) { return Math.max(a, Math.min(b, v)); } -/
def clamp (v a b : ℚ) : ℚ := max a (min b v)

/-- Math.round: round half towards positive infinity. -/
def jsRound (q : ℚ) : ℚ := (⌊q + 1 / 2⌋ : ℤ)

/-- The id crypto.randomUUID() yields in the model: fresh from the
deterministic counter. -/
def freshIdStr (s : EState) : String := "u" ++ toString s.nextId

/-- serializeLayers: layers.map(L => ({id, x, y, w, h, crop, src})). -/
def serializeLayers (ls : List Layer) : List SerLayer :=
  ls.map fun L => { id := L.id, x := L.x, y := L.y, w := L.w, h := L.h, crop := L.crop, img := L.img }

/-- snapshot(): JSON.stringify({layers: serializeLayers(layers), draws, scale, offset}).
The JSON string is modelled by the structured value it denotes. -/
def snapshot (s : EState) : Snap :=
  { layers := serializeLayers s.layers, draws := s.draws, scale := s.scale, offset := s.offset }

/-- pushUndo(): push snapshot(), evict the oldest entry past 60, clear the
redo stack. -/
def pushUndo (s : EState) : EState :=
  let us := s.undoStack ++ [snapshot s]
  { s with undoStack := if 60 < us.length then us.drop 1 else us, redoStack := [] }

/-- The success path of restoreState on an already parsed snapshot: replace
layers (rebuilding each image from its stored src), draws, scale and
offset, and clear the selection.  It does not touch the history stacks or
any ref. -/
def restoreState (sn : Snap) (s : EState) : EState :=
  { s with
    layers := sn.layers.map fun L =>
      { id := L.id, img := L.img, x := L.x, y := L.y, w := L.w, h := L.h, crop := L.crop, selected := false },
    draws := sn.draws,
    scale := sn.scale,
    offset := sn.offset,
    selectedLayerId := none,
    selectedDrawId := none }

/-- undo(): no-op when empty; otherwise push the current snapshot on redo,
pop the newest undo entry and restore it. -/
def undo (s : EState) : EState :=
  match s.undoStack.getLast? with
  | none => s
  | some prev =>
      restoreState prev
        { s with undoStack := s.undoStack.dropLast, redoStack := s.redoStack ++ [snapshot s] }

/-- redo(): the mirror of undo. -/
def redo (s : EState) : EState :=
  match s.redoStack.getLast? with
  | none => s
  | some next =>
      restoreState next
        { s with redoStack := s.redoStack.dropLast, undoStack := s.undoStack ++ [snapshot s] }

/-- screenToWorld, with canvas-relative screen coordinates. -/
def screenToWorld (s : EState) (m : Vec2) : Vec2 :=
  ⟨(m.x - s.offset.x) / s.scale, (m.y - s.offset.y) / s.scale⟩

/-- The projection the wheel handler applies to a world point
(world.x * scale + offset.x), i.e. the inverse mapping of screenToWorld. -/
def worldToScreen (s : EState) (w : Vec2) : Vec2 :=
  ⟨w.x * s.scale + s.offset.x, w.y * s.scale + s.offset.y⟩

/-- onWheel.  factor stands for the already evaluated Math.exp(-e.deltaY * 0.0015). -/
def onWheel (m : Vec2) (factor : ℚ) (s : EState) : EState :=
  let world := screenToWorld s m
  let next := clamp (s.scale * factor) (1 / 4) 4
  let screenAfter : Vec2 := ⟨world.x * next + s.offset.x, world.y * next + s.offset.y⟩
  { s with
    scale := next,
    offset := ⟨s.offset.x + (m.x - screenAfter.x), s.offset.y + (m.y - screenAfter.y)⟩ }

/-- bboxOf: axis-aligned bounding box of a draw object, null for an
empty-points path/polygon. -/
def bboxOf (D : DrawObj) : Option Rect :=
  match D.kind with
  | DKind.path | DKind.polygon =>
      match D.points with
      | [] => none
      | p0 :: _ =>
          let r := D.points.foldl
            (fun (acc : ℚ × ℚ × ℚ × ℚ) (p : Vec2) =>
              (min acc.1 p.x, min acc.2.1 p.y, max acc.2.2.1 p.x, max acc.2.2.2 p.y))
            (p0.x, p0.y, p0.x, p0.y)
          some ⟨r.1, r.2.1, r.2.2.1 - r.1, r.2.2.2 - r.2.1⟩
  | DKind.line | DKind.arrow =>
      some ⟨min D.a.x D.b.x, min D.a.y D.b.y,
            max D.a.x D.b.x - min D.a.x D.b.x, max D.a.y D.b.y - min D.a.y D.b.y⟩
  | DKind.rect | DKind.ellipse =>
      some ⟨min D.a.x D.b.x, min D.a.y D.b.y, |D.b.x - D.a.x|, |D.b.y - D.a.y|⟩

/-- The bounding-box membership test hitTest applies to a draw object
(draws with a null bbox are skipped). -/
def drawHitB (D : DrawObj) (p : Vec2) : Bool :=
  match bboxOf D with
  | none => false
  | some bb => decide (bb.x ≤ p.x ∧ bb.y ≤ p.y ∧ p.x ≤ bb.x + bb.w ∧ p.y ≤ bb.y + bb.h)

/-- The point-in-display-rectangle test hitTest applies to a layer. -/
def layerHitB (L : Layer) (p : Vec2) : Bool :=
  decide (L.x ≤ p.x ∧ L.y ≤ p.y ∧ p.x ≤ L.x + L.w ∧ p.y ≤ L.y + L.h)

/-- A for-loop running from the last index down to 0 and returning the
first hit: later elements are tested before earlier ones. -/
def findLast? {α : Type} (l : List α) (f : α → Bool) : Option α :=
  match l with
  | [] => none
  | x :: xs =>
      match findLast? xs f with
      | some r => some r
      | none => if f x then some x else none

/-- The two result tags of hitTest. -/
inductive HitType where
  | draw
  | layer
deriving DecidableEq

/-- hitTest(p): draws topmost-first by bounding box, then layers
topmost-first by display rectangle, first match or null. -/
def hitTest (s : EState) (p : Vec2) : Option (HitType × String) :=
  match findLast? s.draws (fun D => drawHitB D p) with
  | some D => some (HitType.draw, D.id)
  | none =>
      match findLast? s.layers (fun L => layerHitB L p) with
      | some L => some (HitType.layer, L.id)
      | none => none

/-- layerHandleAtPoint: the first of the four corner handles (nw, ne, se,
sw in that order) within tol of p, in Chebyshev distance. -/
def layerHandleAtPoint (L : Layer) (p : Vec2) (tol : ℚ) : Option Handle :=
  let corners : List (ℚ × ℚ × Handle) :=
    [(L.x, L.y, Handle.nw), (L.x + L.w, L.y, Handle.ne),
     (L.x + L.w, L.y + L.h, Handle.se), (L.x, L.y + L.h, Handle.sw)]
  (corners.find? fun c => decide (|p.x - c.1| ≤ tol ∧ |p.y - c.2.1| ≤ tol)).map fun c => c.2.2

/-- selectOnlyDraw(id). -/
def selectOnlyDraw (id : String) (s : EState) : EState :=
  { s with
    selectedDrawId := some id,
    selectedLayerId := none,
    draws := s.draws.map fun o => { o with selected := o.id == id },
    layers := s.layers.map fun L => { L with selected := false } }

/-- selectOnlyLayer(id). -/
def selectOnlyLayer (id : String) (s : EState) : EState :=
  { s with
    selectedLayerId := some id,
    selectedDrawId := none,
    layers := s.layers.map fun L => { L with selected := L.id == id },
    draws := s.draws.map fun o => { o with selected := false } }

/-- clearSelection(). -/
def clearSelection (s : EState) : EState :=
  { s with
    selectedDrawId := none,
    selectedLayerId := none,
    draws := s.draws.map fun o => { o with selected := false },
    layers := s.layers.map fun L => { L with selected := false } }

/-- ensureCropBox(L): default the box to the full display rectangle, then
clamp it in place (the width/height clamps read the already-clamped
origin). -/
def ensureCropBox (L : Layer) (s : EState) : EState :=
  let b0 := s.cropBox.getD ⟨0, 0, L.w, L.h⟩
  let bx := clamp b0.x 0 (L.w - 10)
  let by' := clamp b0.y 0 (L.h - 10)
  let bw := clamp b0.w 10 (L.w - bx)
  let bh := clamp b0.h 10 (L.h - by')
  { s with cropBox := some ⟨bx, by', bw, bh⟩ }

/-- The crop base: the layer's existing crop, defaulting to the full
source rectangle {0, 0, img.width, img.height} when absent. -/
def cropBase (L : Layer) : Rect :=
  L.crop.getD ⟨0, 0, L.img.width, L.img.height⟩

/-- The source rectangle applyCrop reads out of the original raster:
srcX = base.x + (b.x / L.w) * base.w and analogously for y, w, h. -/
def cropSrcRect (L : Layer) (b : Rect) : Rect :=
  let base := cropBase L
  ⟨base.x + (b.x / L.w) * base.w,
   base.y + (b.y / L.h) * base.h,
   (b.w / L.w) * base.w,
   (b.h / L.h) * base.h⟩

/-- The layer applyCrop's onload continuation installs: a freshly decoded
raster of the off-screen canvas (width max(1, round(b.w)), height
max(1, round(b.h)), content the cropSrcRect sub-rectangle of the old
raster), crop cleared, display rectangle moved by the box origin and sized
to the new raster.  The new data URL is abstracted as a tagged src. -/
def croppedLayer (L : Layer) (b : Rect) : Layer :=
  let offW := max 1 (jsRound b.w)
  let offH := max 1 (jsRound b.h)
  { L with
    img := { src := "cropped:" ++ L.img.src, width := offW, height := offH },
    crop := none,
    x := L.x + b.x,
    y := L.y + b.y,
    w := offW,
    h := offH }

/-- applyCrop(): guard on a selected layer and a pending box, push an undo
snapshot, then (once the new raster has decoded) replace the layer and
reset the crop state.  The asynchronous decode is collapsed into one step;
the decode of a just-produced data URL cannot fail. -/
def applyCrop (s : EState) : EState :=
  match s.selectedLayerId, s.cropBox with
  | some sid, some b =>
      let s1 := pushUndo s
      match s.layers.find? (fun L => L.id == sid) with
      | none => s1
      | some L =>
          { s1 with
            layers := s1.layers.map fun x => if x.id == L.id then croppedLayer L b else x,
            cropBox := none,
            cropDrag := none,
            selectedLayerId := none,
            tool := Tool.move }
  | _, _ => s

/-- moveObj(base, d): translate the object's geometry by d. -/
def moveObj (base : DrawObj) (d : Vec2) : DrawObj :=
  match base.kind with
  | DKind.path | DKind.polygon =>
      { base with points := base.points.map fun p => ⟨p.x + d.x, p.y + d.y⟩ }
  | DKind.line | DKind.rect | DKind.ellipse | DKind.arrow =>
      { base with
        a := ⟨base.a.x + d.x, base.a.y + d.y⟩,
        b := ⟨base.b.x + d.x, base.b.y + d.y⟩ }

/-- The layer the resize and crop blocks of onPointerDown target: the hit
layer if the hit is a layer, else the currently selected layer, if any. -/
def lookupTargetLayer (s : EState) (hit : Option (HitType × String)) : Option Layer :=
  match hit with
  | some (HitType.layer, id) => s.layers.find? fun L => L.id == id
  | _ =>
      match s.selectedLayerId with
      | some sid => s.layers.find? fun L => L.id == sid
      | none => none

/-- The crop branch of onPointerDown. -/
def pdCropBranch (p : Vec2) (s : EState) : EState :=
  match lookupTargetLayer s (hitTest s p) with
  | none => s
  | some L =>
      let s1 := ensureCropBox L (selectOnlyLayer L.id s)
      match s1.cropBox with
      | none => s1
      | some b =>
          let lx := p.x - L.x
          let ly := p.y - L.y
          let tol := 10 / s.scale
          let corners : List (ℚ × ℚ × Handle) :=
            [(b.x, b.y, Handle.nw), (b.x + b.w, b.y, Handle.ne),
             (b.x + b.w, b.y + b.h, Handle.se), (b.x, b.y + b.h, Handle.sw)]
          match corners.find? fun c => decide (|lx - c.1| ≤ tol ∧ |ly - c.2.1| ≤ tol) with
          | some c => { s1 with cropDrag := some ⟨p, b, c.2.2⟩ }
          | none =>
              if b.w = 0 ∨ b.h = 0 then
                { s1 with
                  cropBox := some ⟨lx, ly, 0, 0⟩,
                  cropDrag := some ⟨p, ⟨lx, ly, 0, 0⟩, Handle.se⟩ }
              else s1

/-- The line/arrow endpoint-grab block of onPointerDown; none means the
block falls through. -/
def pdHandleAB (p : Vec2) (s : EState) : Option EState :=
  match hitTest s p with
  | some (HitType.draw, id) =>
      match s.draws.find? (fun d => d.id == id) with
      | some D =>
          if D.kind = DKind.line ∨ D.kind = DKind.arrow then
            let tol := 10 / s.scale
            if |p.x - D.a.x| ≤ tol ∧ |p.y - D.a.y| ≤ tol then
              some { selectOnlyDraw D.id s with handleDrag := some ⟨D.id, AB.a⟩ }
            else if |p.x - D.b.x| ≤ tol ∧ |p.y - D.b.y| ≤ tol then
              some { selectOnlyDraw D.id s with handleDrag := some ⟨D.id, AB.b⟩ }
            else none
          else none
      | none => none
  | _ => none

/-- The per-tool tail of onPointerDown (drawing branches and the
select/move fallback). -/
def pdTools (p : Vec2) (s : EState) : EState :=
  match s.tool with
  | Tool.eraser =>
      let s1 := pushUndo s
      let id := freshIdStr s1
      { s1 with
        nextId := s1.nextId + 1,
        draws := s1.draws ++
          [{ id := id, kind := DKind.path, points := [p], stroke := "#000",
             fill := "transparent", fillMode := FillMode.stroke,
             thickness := s1.thickness, dashed := false, eraser := true }],
        selectedDrawId := some id,
        dragStart := some p,
        lastMove := some p }
  | Tool.pencil =>
      let s1 := pushUndo s
      let id := freshIdStr s1
      { s1 with
        nextId := s1.nextId + 1,
        draws := s1.draws ++
          [{ id := id, kind := DKind.path, points := [p], stroke := s1.primary,
             fill := "transparent", fillMode := FillMode.stroke,
             thickness := s1.thickness, dashed := s1.strokeDashed }],
        selectedDrawId := some id,
        selectedLayerId := none,
        dragStart := some p,
        lastMove := some p }
  | Tool.line | Tool.rect | Tool.ellipse | Tool.arrow =>
      { pushUndo s with
        dragStart := some p, lastMove := some p,
        selectedDrawId := none, selectedLayerId := none }
  | Tool.polygon =>
      { pushUndo s with
        polyTemp := if s.polyTemp.length = 0 then [p] else s.polyTemp ++ [p],
        selectedDrawId := none, selectedLayerId := none }
  | Tool.crop => s
  | Tool.move =>
      match hitTest s p with
      | some (HitType.draw, id) =>
          { selectOnlyDraw id s with
            moving := (s.draws.find? fun d => d.id == id).map fun D => ⟨p, MovingOrig.draw D⟩ }
      | some (HitType.layer, id) =>
          { selectOnlyLayer id s with
            moving := (s.layers.find? fun L => L.id == id).map fun L => ⟨p, MovingOrig.layer L⟩ }
      | none => clearSelection s

/-- The tail of onPointerDown after the layer-resize block. -/
def pdAfterResize (p : Vec2) (s : EState) : EState :=
  match pdHandleAB p s with
  | some s1 => s1
  | none => pdTools p s

/-- onPointerDown.  m is the canvas-relative pointer position; shiftKey is
the aspect-lock modifier. -/
def onPointerDown (m : Vec2) (shiftKey : Bool) (s : EState) : EState :=
  if s.panning then { s with panLast := m }
  else
    let p := screenToWorld s m
    if s.tool = Tool.crop then pdCropBranch p s
    else
      match lookupTargetLayer s (hitTest s p) with
      | some L =>
          let s1 := selectOnlyLayer L.id s
          match layerHandleAtPoint L p (10 / s.scale) with
          | some h =>
              { s1 with layerResize := some ⟨L.id, h, p, ⟨L.x, L.y, L.w, L.h⟩, shiftKey⟩ }
          | none => pdAfterResize p s1
      | none => pdAfterResize p s

/-- The crop-drag block of onPointerMove. -/
def pmCrop (p : Vec2) (s : EState) : Option EState :=
  if s.tool = Tool.crop then
    match s.cropDrag, s.selectedLayerId with
    | some cd, some sid =>
        match s.layers.find? (fun L => L.id == sid) with
        | some L =>
            let dx := p.x - cd.start.x
            let dy := p.y - cd.start.y
            let box := cd.box
            let raw : ℚ × ℚ × ℚ × ℚ :=
              match cd.handle with
              | Handle.nw => (box.x + dx, box.y + dy, box.w - dx, box.h - dy)
              | Handle.ne => (box.x, box.y + dy, box.w + dx, box.h - dy)
              | Handle.se => (box.x, box.y, box.w + dx, box.h + dy)
              | Handle.sw => (box.x + dx, box.y, box.w - dx, box.h + dy)
            let nx := clamp raw.1 0 (L.w - 10)
            let ny := clamp raw.2.1 0 (L.h - 10)
            some { s with
              cropBox := some ⟨nx, ny, clamp raw.2.2.1 10 (L.w - nx), clamp raw.2.2.2 10 (L.h - ny)⟩ }
        | none => some s
    | _, _ => none
  else none

/-- The endpoint-drag block of onPointerMove. -/
def pmHandleDrag (p : Vec2) (s : EState) : Option EState :=
  match s.handleDrag with
  | none => none
  | some hd =>
      some { s with draws := s.draws.map fun d =>
        if d.id == hd.drawId then
          if d.kind = DKind.line ∨ d.kind = DKind.arrow then
            match hd.handle with
            | AB.a => { d with a := p }
            | AB.b => { d with b := p }
          else d
        else d }

/-- The corner-anchored resize arithmetic of the layer-resize block.
The source computes aspect as orig.w / orig.h || 1; the || 1 replaces a
zero or NaN quotient (orig.w = 0, or 0/0).  The h = 0, w ≠ 0 case would
yield Infinity in JS; it is unreachable (layer extents stay ≥ 10) and
modelled as 1. -/
def resizeLayerRect (r : LayerResizeRef) (dx dy : ℚ) (L : Layer) : Layer :=
  let orig := r.orig
  let aspect := if orig.w = 0 ∨ orig.h = 0 then 1 else orig.w / orig.h
  let signs : ℚ × ℚ :=
    match r.handle with
    | Handle.se => (1, 1)
    | Handle.ne => (1, -1)
    | Handle.sw => (-1, 1)
    | Handle.nw => (-1, -1)
  let ww0 := orig.w + signs.1 * dx
  let hh0 := orig.h + signs.2 * dy
  let wh : ℚ × ℚ :=
    if r.keepRatio then
      if |ww0 - orig.w| > |hh0 - orig.h| then (ww0, ww0 / aspect) else (hh0 * aspect, hh0)
    else (ww0, hh0)
  { L with
    x := if signs.1 < 0 then orig.x + (orig.w - wh.1) else orig.x,
    y := if signs.2 < 0 then orig.y + (orig.h - wh.2) else orig.y,
    w := max 10 wh.1,
    h := max 10 wh.2 }

/-- The layer-resize block of onPointerMove. -/
def pmLayerResize (p : Vec2) (s : EState) : Option EState :=
  match s.layerResize with
  | none => none
  | some r =>
      let dx := p.x - r.start.x
      let dy := p.y - r.start.y
      some { s with layers := s.layers.map fun L =>
        if L.id == r.layerId then resizeLayerRect r dx dy L else L }

/-- The freehand block of onPointerMove: append the point to the selected
path. -/
def pmPencil (p : Vec2) (s : EState) : Option EState :=
  if (s.tool = Tool.pencil ∨ s.tool = Tool.eraser) ∧ s.dragStart.isSome then
    some { s with
      draws := s.draws.map fun o =>
        if some o.id = s.selectedDrawId then { o with points := o.points ++ [p] } else o,
      lastMove := some p }
  else none

/-- The draft kind for the four drag shapes. -/
def draftKind : Tool → DKind
  | Tool.line => DKind.line
  | Tool.rect => DKind.rect
  | Tool.ellipse => DKind.ellipse
  | _ => DKind.arrow

/-- The shape-preview block of onPointerMove: recompute the draft from the
drag origin to the current point. -/
def pmDraft (p : Vec2) (s : EState) : Option EState :=
  match s.dragStart with
  | some st =>
      match s.tool with
      | Tool.line | Tool.rect | Tool.ellipse | Tool.arrow =>
          some { s with
            draft := some
              { id := "__draft__", kind := draftKind s.tool, stroke := s.primary,
                fill := s.secondary, fillMode := s.fillMode, thickness := s.thickness,
                dashed := s.strokeDashed, a := st, b := p },
            lastMove := some p }
      | _ => none
  | none => none

/-- The whole-entity move block of onPointerMove. -/
def pmMoving (p : Vec2) (s : EState) : Option EState :=
  match s.moving with
  | none => none
  | some mv =>
      let d : Vec2 := ⟨p.x - mv.start.x, p.y - mv.start.y⟩
      match s.selectedDrawId with
      | some did =>
          match mv.orig with
          | MovingOrig.draw base =>
              some { s with draws := s.draws.map fun o => if o.id == did then moveObj base d else o }
          | MovingOrig.layer _ => some s
      | none =>
          match s.selectedLayerId with
          | some lid =>
              match mv.orig with
              | MovingOrig.layer base =>
                  some { s with layers := s.layers.map fun L =>
                    if L.id == lid then { L with x := base.x + d.x, y := base.y + d.y } else L }
              | MovingOrig.draw _ => some s
          | none => some s

/-- onPointerMove: pan, else the guarded blocks in source order (crop,
endpoint drag, layer resize, freehand, draft, move), first firing block
wins. -/
def onPointerMove (m : Vec2) (s : EState) : EState :=
  if s.panning then
    { s with
      panLast := m,
      offset := ⟨s.offset.x + (m.x - s.panLast.x), s.offset.y + (m.y - s.panLast.y)⟩ }
  else
    let p := screenToWorld s m
    ((pmCrop p s).orElse fun _ =>
      (pmHandleDrag p s).orElse fun _ =>
        (pmLayerResize p s).orElse fun _ =>
          (pmPencil p s).orElse fun _ =>
            (pmDraft p s).orElse fun _ => pmMoving p s).getD s

/-- finalizePointer, shared by pointer-up, pointer-leave and
pointer-cancel.  The null-draft finalization ({...null, id}) produces an
object with only an id: never rendered and with a null bbox; it is
modelled as an empty path, which has the same observable behaviour. -/
def finalizePointer (s : EState) : EState :=
  if s.handleDrag.isSome then pushUndo { s with handleDrag := none }
  else if s.layerResize.isSome then pushUndo { s with layerResize := none }
  else if s.tool = Tool.crop then { s with cropDrag := none }
  else if s.dragStart.isSome ∧ s.lastMove.isSome ∧
      (s.tool = Tool.line ∨ s.tool = Tool.rect ∨ s.tool = Tool.ellipse ∨ s.tool = Tool.arrow) then
    let id := freshIdStr s
    let finalized : DrawObj :=
      match s.draft with
      | some d => { d with id := id }
      | none =>
          { id := id, kind := DKind.path, stroke := "", fill := "",
            fillMode := FillMode.stroke, thickness := 0, dashed := false }
    { s with
      nextId := s.nextId + 1,
      draws := s.draws ++ [finalized],
      selectedDrawId := some id,
      selectedLayerId := none,
      draft := none,
      dragStart := none,
      lastMove := none }
  else if s.dragStart.isSome ∧ (s.tool = Tool.pencil ∨ s.tool = Tool.eraser) then
    { s with dragStart := none, lastMove := none }
  else if s.moving.isSome then pushUndo { s with moving := none }
  else s

/-- The polygon-commit branch of the window keydown handler for Enter (the
other keydown branches do not fire on an unmodified Enter). -/
def onKeyEnter (s : EState) : EState :=
  if s.tool = Tool.polygon ∧ 3 ≤ s.polyTemp.length then
    let s1 := pushUndo s
    let id := freshIdStr s1
    { s1 with
      nextId := s1.nextId + 1,
      draws := s1.draws ++
        [{ id := id, kind := DKind.polygon, points := s.polyTemp, stroke := s1.primary,
           fill := s1.secondary, fillMode := s1.fillMode, thickness := s1.thickness,
           dashed := s1.strokeDashed }],
      polyTemp := [],
      selectedDrawId := some id,
      selectedLayerId := none }
  else s

/-- The polygon-cancel branch of the window keydown handler for Escape. -/
def onKeyEscape (s : EState) : EState :=
  if s.tool = Tool.polygon then { s with polyTemp := [] } else s

/-- clearAll(): pushUndo(); setDraws([]). -/
def clearAll (s : EState) : EState :=
  { pushUndo s with draws := [] }

/-!
Raw-JSON model of restoreState, for the claims about structurally invalid
snapshots.  restoreState(snap) runs JSON.parse(snap) and then executes

  for (const L of parsed.layers) { ... ns.push({id: L.id, ...}) }
  setLayers(ns); setDraws(parsed.draws || []);
  setScale(parsed.scale ?? 1); setOffset(parsed.offset ?? {x:0,y:0});
  setSelectedLayerId(null); setSelectedDrawId(null);

A malformed JSON string throws inside JSON.parse, before restoreState does
anything; that case is the none input below never reaching restoreStateJson.
Given a parsed value, the only operations that can throw are the member
access parsed.layers (TypeError when parsed is null), the for-of iteration
(TypeError when parsed.layers is undefined, null, a number, a boolean or a
plain object — strings ARE iterable, character by character), and the
member accesses L.id etc. on a null element.  All of these run before the
first set* call, so a throw leaves every state cell untouched; the Option
result models exactly that all-or-nothing behaviour.  Field values of
unexpected type do not throw: they come through as undefined/garbage
(modelled by defaults, which does not affect whether mutation happens).
-/

/-- A parsed JSON value. -/
inductive Json where
  | null
  | bool (b : Bool)
  | num (q : ℚ)
  | str (s : String)
  | arr (elems : List Json)
  | obj (fields : List (String × Json))

/-- JS member access j[k]: none = TypeError (access on null), some none =
undefined, some (some v) = the value. -/
def jsGetField (j : Json) (k : String) : Option (Option Json) :=
  match j with
  | Json.null => none
  | Json.obj fs => some (fs.lookup k)
  | _ => some none

/-- JS for-of: none = TypeError (value not iterable); arrays iterate their
elements and strings their characters. -/
def jsIterate (v : Option Json) : Option (List Json) :=
  match v with
  | some (Json.arr xs) => some xs
  | some (Json.str str) => some (str.data.map fun c => Json.str (String.mk [c]))
  | _ => none

/-- Read a rational out of a field slot, 0 for anything else (missing
numeric fields surface as undefined and propagate as NaN in JS; the claim
settled here only depends on whether mutation happens at all). -/
def qOf (v : Option Json) : ℚ :=
  match v with
  | some (Json.num q) => q
  | _ => 0

/-- Read a string out of a field slot. -/
def sOf (v : Option Json) : String :=
  match v with
  | some (Json.str str) => str
  | _ => ""

/-- Read a boolean out of a field slot (serialized flags are genuine
booleans). -/
def bOf (v : Option Json) : Bool :=
  match v with
  | some (Json.bool b) => b
  | _ => false

/-- Decode a serialized vector {x, y}. -/
def decodeVec2 (j : Json) : Vec2 :=
  match j with
  | Json.obj fs => ⟨qOf (fs.lookup "x"), qOf (fs.lookup "y")⟩
  | _ => ⟨0, 0⟩

/-- Decode a serialized rectangle {x, y, w, h}. -/
def decodeRect (j : Json) : Rect :=
  match j with
  | Json.obj fs => ⟨qOf (fs.lookup "x"), qOf (fs.lookup "y"), qOf (fs.lookup "w"), qOf (fs.lookup "h")⟩
  | _ => ⟨0, 0, 0, 0⟩

/-- Decode a draw-object kind tag. -/
def kindOf (k : String) : DKind :=
  if k = "line" then DKind.line
  else if k = "rect" then DKind.rect
  else if k = "ellipse" then DKind.ellipse
  else if k = "polygon" then DKind.polygon
  else if k = "arrow" then DKind.arrow
  else DKind.path

/-- Decode a fill mode tag. -/
def fmOf (k : String) : FillMode :=
  if k = "fill" then FillMode.fill
  else if k = "both" then FillMode.both
  else FillMode.stroke

/-- Decode one element of the serialized draws array.  setDraws stores the
array as-is without touching its elements, so nothing here can throw. -/
def decodeDrawEntry (j : Json) : DrawObj :=
  match j with
  | Json.obj fs =>
      { id := sOf (fs.lookup "id"),
        kind := kindOf (sOf (fs.lookup "kind")),
        stroke := sOf (fs.lookup "stroke"),
        fill := sOf (fs.lookup "fill"),
        fillMode := fmOf (sOf (fs.lookup "fillMode")),
        thickness := qOf (fs.lookup "thickness"),
        dashed := bOf (fs.lookup "dashed"),
        selected := bOf (fs.lookup "selected"),
        eraser := bOf (fs.lookup "eraser"),
        points :=
          match fs.lookup "points" with
          | some (Json.arr xs) => xs.map decodeVec2
          | _ => [],
        a := match fs.lookup "a" with | some v => decodeVec2 v | none => ⟨0, 0⟩,
        b := match fs.lookup "b" with | some v => decodeVec2 v | none => ⟨0, 0⟩ }
  | _ =>
      { id := "", kind := DKind.path, stroke := "", fill := "",
        fillMode := FillMode.stroke, thickness := 0, dashed := false }

/-- parsed.draws || [] — falsy (missing, null, false, 0, empty string)
defaults to []; a truthy non-array would be stored as-is by setDraws and
only blow up later in the renderer, outside this claim's scope. -/
def decodeDraws (v : Option Json) : List DrawObj :=
  match v with
  | some (Json.arr xs) => xs.map decodeDrawEntry
  | _ => []

/-- parsed.scale ?? 1 — only null/undefined default. -/
def decodeScale (v : Option Json) : ℚ :=
  match v with
  | none => 1
  | some Json.null => 1
  | some (Json.num q) => q
  | some _ => 0

/-- parsed.offset ?? {x: 0, y: 0}. -/
def decodeOffset (v : Option Json) : Vec2 :=
  match v with
  | none => ⟨0, 0⟩
  | some Json.null => ⟨0, 0⟩
  | some (Json.obj fs) => ⟨qOf (fs.lookup "x"), qOf (fs.lookup "y")⟩
  | some _ => ⟨0, 0⟩

/-- Build one restored layer from a layers-array element; none = the
member accesses on a null element throw.  The fresh Image gets the stored
src; its pixel dimensions only become available after the asynchronous
decode and play no role in the restore itself. -/
def decodeLayerEntry (j : Json) : Option Layer :=
  match j with
  | Json.null => none
  | Json.obj fs =>
      some
        { id := sOf (fs.lookup "id"),
          img := { src := sOf (fs.lookup "src"), width := 0, height := 0 },
          x := qOf (fs.lookup "x"), y := qOf (fs.lookup "y"),
          w := qOf (fs.lookup "w"), h := qOf (fs.lookup "h"),
          crop :=
            match fs.lookup "crop" with
            | some (Json.obj cf) =>
                some ⟨qOf (cf.lookup "x"), qOf (cf.lookup "y"), qOf (cf.lookup "w"), qOf (cf.lookup "h")⟩
            | _ => none,
          selected := false }
  | _ =>
      some
        { id := "", img := { src := "", width := 0, height := 0 },
          x := 0, y := 0, w := 0, h := 0, crop := none, selected := false }

/-- restoreState on a parsed JSON value: none = a TypeError was thrown
before any state cell was written; some = the restore ran to completion. -/
def restoreStateJson (j : Json) (s : EState) : Option EState :=
  match jsGetField j "layers" with
  | none => none
  | some layersVal =>
      match jsIterate layersVal with
      | none => none
      | some items =>
          match items.mapM decodeLayerEntry with
          | none => none
          | some ls =>
              some
                { s with
                  layers := ls,
                  draws := decodeDraws ((jsGetField j "draws").getD none),
                  scale := decodeScale ((jsGetField j "scale").getD none),
                  offset := decodeOffset ((jsGetField j "offset").getD none),
                  selectedLayerId := none,
                  selectedDrawId := none }

/-!  Supporting lemmas. -/

/-- The bottom-up for-loop finds the same element as searching the
reversed list front-to-back. -/
theorem findLast?_eq_reverse_find? {α : Type} (l : List α) (f : α → Bool) :
    findLast? l f = l.reverse.find? f := by
  induction l with
  | nil => rfl
  | cons x xs ih =>
      simp only [findLast?, ih, List.reverse_cons, List.find?_append]
      cases xs.reverse.find? f with
      | none => cases hfx : f x <;> simp [Option.or, List.find?, hfx]
      | some r => simp [Option.or]

/-- pushUndo always leaves the just-taken snapshot on top of the undo
stack, eviction or not. -/
theorem pushUndo_getLast (s : EState) :
    (pushUndo s).undoStack.getLast? = some (snapshot s) := by
  simp only [pushUndo]
  by_cases h : 60 < (s.undoStack ++ [snapshot s]).length
  · rw [if_pos h]
    cases hu : s.undoStack with
    | nil => rw [hu] at h; simp at h
    | cons a t => simp [List.getLast?_concat]
  · rw [if_neg h]
    exact List.getLast?_concat _

/-- The size of the undo stack after pushUndo: one more entry, capped by
the eviction of the oldest entry past 60. -/
theorem pushUndo_length (s : EState) :
    (pushUndo s).undoStack.length =
      if 60 < s.undoStack.length + 1 then s.undoStack.length else s.undoStack.length + 1 := by
  simp only [pushUndo]
  split
  · next h =>
      rw [if_pos (by simpa using h)]
      simp
  · next h =>
      rw [if_neg (by simpa using h)]
      simp

/-- Below the 60-entry cap, pushUndo is a plain append of the snapshot. -/
theorem pushUndo_undoStack_of_lt (s : EState) (h : s.undoStack.length < 60) :
    (pushUndo s).undoStack = s.undoStack ++ [snapshot s] := by
  simp only [pushUndo]
  rw [if_neg (by simp; omega)]

/-- With no layers in the scene, the resize/crop target-layer lookup never
finds anything. -/
theorem lookupTargetLayer_none (s : EState) (hl : s.layers = [])
    (hit : Option (HitType × String)) : lookupTargetLayer s hit = none := by
  unfold lookupTargetLayer
  cases hit with
  | none => cases h : s.selectedLayerId <;> simp [hl]
  | some v =>
      obtain ⟨t, id⟩ := v
      cases t with
      | layer => simp [hl]
      | draw => cases h : s.selectedLayerId <;> simp [hl]

/-- hitTest only ever returns draw ids of draws in the scene. -/
theorem hitTest_draw_mem (s : EState) (p : Vec2) (id : String)
    (h : hitTest s p = some (HitType.draw, id)) :
    ∃ D ∈ s.draws, D.id = id ∧ drawHitB D p = true := by
  unfold hitTest at h
  cases hf : findLast? s.draws (fun D => drawHitB D p) with
  | none =>
      rw [hf] at h
      cases hg : findLast? s.layers (fun L => layerHitB L p) with
      | none => rw [hg] at h; exact absurd h (by simp)
      | some L => rw [hg] at h; exact absurd h (by simp)
  | some D =>
      rw [hf] at h
      have hD : D.id = id := by simpa using h
      rw [findLast?_eq_reverse_find?] at hf
      have hmem : D ∈ s.draws.reverse := List.mem_of_find?_eq_some hf
      have hhit : drawHitB D p = true := by simpa using List.find?_some hf
      exact ⟨D, List.mem_reverse.mp hmem, hD, hhit⟩

/-- In a scene without line or arrow draws, the endpoint-grab block of
onPointerDown always falls through. -/
theorem pdHandleAB_none (s : EState) (p : Vec2)
    (hd : ∀ D ∈ s.draws, D.kind ≠ DKind.line ∧ D.kind ≠ DKind.arrow) :
    pdHandleAB p s = none := by
  unfold pdHandleAB
  cases hht : hitTest s p with
  | none => rfl
  | some v =>
      obtain ⟨t, id⟩ := v
      cases t with
      | layer => rfl
      | draw =>
          cases hf : s.draws.find? (fun d => d.id == id) with
          | none => simp [hf]
          | some D =>
              have hk := hd D (List.mem_of_find?_eq_some hf)
              simp [hf, hk.1, hk.2]

/-!  Concrete sample data used by witnesses and counterexample runs. -/

/-- A 200×100 source image shown as a 100×50 layer at the origin. -/
def layerL : Layer :=
  { id := "L", img := { src := "img", width := 200, height := 100 },
    x := 0, y := 0, w := 100, h := 50 }

/-- The rectangle draw object of the hit-test example: a = (10,10),
b = (50,40). -/
def rectR1 : DrawObj :=
  { id := "r1", kind := DKind.rect, stroke := "#000000", fill := "#ffffff",
    fillMode := FillMode.stroke, thickness := 6, dashed := false,
    a := ⟨10, 10⟩, b := ⟨50, 40⟩ }

/-- A scene holding only rectR1. -/
def sRect : EState := { draws := [rectR1] }

/-- A plain viewport state for the zoom witness. -/
def sView : EState := { scale := 1, offset := ⟨3, 4⟩ }

/-!  Claim C3 — anchor-preserving zoom. -/

/-- Claim C3: for every cursor point m and every starting viewport with a
positive scale, worldToScreen(screenToWorld(m)) = m before the zoom; after
the wheel handler picks the clamped new scale (factor standing for
exp(-deltaY * 0.0015)) and corrects the offset, the world point under the
cursor still projects exactly to m; and the new scale is
clamp(scale * factor, 0.25, 4). -/
theorem zoom_anchor_invariant (s : EState) (m : Vec2) (factor : ℚ)
    (hs : 0 < s.scale) :
    worldToScreen s (screenToWorld s m) = m ∧
    worldToScreen (onWheel m factor s) (screenToWorld s m) = m ∧
    (onWheel m factor s).scale = clamp (s.scale * factor) (1 / 4) 4 := by
  obtain ⟨mx, my⟩ := m
  refine ⟨?_, ?_, rfl⟩
  · simp only [worldToScreen, screenToWorld, Vec2.mk.injEq]
    constructor <;> field_simp
  · simp only [worldToScreen, screenToWorld, onWheel, Vec2.mk.injEq]
    constructor <;> ring

/-- Witness for C3 at the concrete viewport sView, cursor (7, 11) and
factor 3/2. -/
theorem zoom_anchor_invariant_witness :
    0 < sView.scale ∧
    (worldToScreen sView (screenToWorld sView ⟨7, 11⟩) = ⟨7, 11⟩ ∧
     worldToScreen (onWheel ⟨7, 11⟩ (3 / 2) sView) (screenToWorld sView ⟨7, 11⟩) = ⟨7, 11⟩ ∧
     (onWheel ⟨7, 11⟩ (3 / 2) sView).scale = clamp (sView.scale * (3 / 2)) (1 / 4) 4) :=
  ⟨by decide, zoom_anchor_invariant sView ⟨7, 11⟩ (3 / 2) (by decide)⟩

/-!  Claim C7 — hit-testing. -/

/-- Claim C7: hitTest inspects draw objects topmost-first (the reverse of
insertion order) with the point-in-bounding-box test, then layers
topmost-first with the point-in-display-rectangle test, returning the
first match or null; and on the single-Rect scene with a = (10,10),
b = (50,40), the point (30,25) hits that rect while (5,5) hits nothing. -/
theorem hit_test_containment :
    (∀ (s : EState) (p : Vec2),
      hitTest s p =
        ((s.draws.reverse.find? fun D => drawHitB D p).map
            fun D => (HitType.draw, D.id)).or
          ((s.layers.reverse.find? fun L => layerHitB L p).map
            fun L => (HitType.layer, L.id))) ∧
    hitTest sRect ⟨30, 25⟩ = some (HitType.draw, "r1") ∧
    hitTest sRect ⟨5, 5⟩ = none := by
  refine ⟨fun s p => ?_,
    by norm_num [hitTest, sRect, rectR1, findLast?, drawHitB, layerHitB, bboxOf],
    by norm_num [hitTest, sRect, rectR1, findLast?, drawHitB, layerHitB, bboxOf]⟩
  unfold hitTest
  rw [findLast?_eq_reverse_find?, findLast?_eq_reverse_find?]
  cases s.draws.reverse.find? fun D => drawHitB D p with
  | some D => simp [Option.or]
  | none =>
      cases s.layers.reverse.find? fun L => layerHitB L p with
      | some L => simp [Option.or]
      | none => simp [Option.or]

/-!  Claim C9 — polygon commit guard. -/

/-- Claim C9: with the polygon tool active, Enter with exactly 2
accumulated points changes nothing at all; with 3 or more points it
appends exactly one Polygon draw carrying exactly the accumulated points
and clears the accumulator; Escape clears the accumulator and creates
nothing (the state is the same except for the emptied accumulator). -/
theorem polygon_commit_guard (s : EState) (ht : s.tool = Tool.polygon) :
    (s.polyTemp.length = 2 → onKeyEnter s = s) ∧
    (3 ≤ s.polyTemp.length →
      (onKeyEnter s).draws = s.draws ++
        [{ id := freshIdStr s, kind := DKind.polygon, points := s.polyTemp,
           stroke := s.primary, fill := s.secondary, fillMode := s.fillMode,
           thickness := s.thickness, dashed := s.strokeDashed }] ∧
      (onKeyEnter s).polyTemp = []) ∧
    onKeyEscape s = { s with polyTemp := [] } := by
  refine ⟨fun h2 => ?_, fun h3 => ?_, ?_⟩
  · unfold onKeyEnter
    rw [if_neg]
    omega
  · unfold onKeyEnter
    rw [if_pos ⟨ht, h3⟩]
    exact ⟨rfl, rfl⟩
  · unfold onKeyEscape
    rw [if_pos ht]

/-- A polygon-building state with three accumulated points. -/
def sPoly3 : EState :=
  { tool := Tool.polygon, polyTemp := [⟨1, 1⟩, ⟨9, 2⟩, ⟨4, 8⟩] }

/-- Witness for C9 at the concrete three-point accumulator sPoly3. -/
theorem polygon_commit_guard_witness :
    sPoly3.tool = Tool.polygon ∧
    ((sPoly3.polyTemp.length = 2 → onKeyEnter sPoly3 = sPoly3) ∧
     (3 ≤ sPoly3.polyTemp.length →
       (onKeyEnter sPoly3).draws = sPoly3.draws ++
         [{ id := freshIdStr sPoly3, kind := DKind.polygon, points := sPoly3.polyTemp,
            stroke := sPoly3.primary, fill := sPoly3.secondary, fillMode := sPoly3.fillMode,
            thickness := sPoly3.thickness, dashed := sPoly3.strokeDashed }] ∧
       (onKeyEnter sPoly3).polyTemp = []) ∧
     onKeyEscape sPoly3 = { sPoly3 with polyTemp := [] }) :=
  ⟨rfl, polygon_commit_guard sPoly3 rfl⟩

/-!  Claim C10 — clearAll frame. -/

/-- Claim C10: clearAll pushes exactly one undo checkpoint (the snapshot
taken before the clear, with the oldest entry evicted past 60 and the redo
stack reset, as every checkpoint does) and empties the draw collection,
leaving the layers, the viewport scale and offset, selectedLayerId and
selectedDrawId all unchanged. -/
theorem clear_all_frame (s : EState) :
    (clearAll s).draws = [] ∧
    (clearAll s).layers = s.layers ∧
    (clearAll s).scale = s.scale ∧
    (clearAll s).offset = s.offset ∧
    (clearAll s).selectedLayerId = s.selectedLayerId ∧
    (clearAll s).selectedDrawId = s.selectedDrawId ∧
    (clearAll s).undoStack.getLast? = some (snapshot s) ∧
    (clearAll s).undoStack.length =
      (if 60 < s.undoStack.length + 1 then s.undoStack.length else s.undoStack.length + 1) ∧
    (clearAll s).redoStack = [] := by
  refine ⟨rfl, rfl, rfl, rfl, rfl, rfl, ?_, ?_, rfl⟩
  · exact pushUndo_getLast s
  · exact pushUndo_length s

/-!  Small rewriting facts used when evaluating the concrete scenario
runs: the tool disequalities the handlers branch on, and the first fresh
id. -/

@[simp] theorem tool_pencil_ne_crop : (Tool.pencil = Tool.crop) = False := by simp
@[simp] theorem tool_eraser_ne_crop : (Tool.eraser = Tool.crop) = False := by simp
@[simp] theorem tool_polygon_ne_crop : (Tool.polygon = Tool.crop) = False := by simp
@[simp] theorem tool_move_ne_crop : (Tool.move = Tool.crop) = False := by simp
@[simp] theorem tool_pencil_ne_line : (Tool.pencil = Tool.line) = False := by simp
@[simp] theorem tool_pencil_ne_rect : (Tool.pencil = Tool.rect) = False := by simp
@[simp] theorem tool_pencil_ne_ellipse : (Tool.pencil = Tool.ellipse) = False := by simp
@[simp] theorem tool_pencil_ne_arrow : (Tool.pencil = Tool.arrow) = False := by simp
@[simp] theorem tool_eraser_ne_line : (Tool.eraser = Tool.line) = False := by simp
@[simp] theorem tool_eraser_ne_rect : (Tool.eraser = Tool.rect) = False := by simp
@[simp] theorem tool_eraser_ne_ellipse : (Tool.eraser = Tool.ellipse) = False := by simp
@[simp] theorem tool_eraser_ne_arrow : (Tool.eraser = Tool.arrow) = False := by simp
@[simp] theorem tool_polygon_ne_line : (Tool.polygon = Tool.line) = False := by simp
@[simp] theorem tool_polygon_ne_rect : (Tool.polygon = Tool.rect) = False := by simp
@[simp] theorem tool_polygon_ne_ellipse : (Tool.polygon = Tool.ellipse) = False := by simp
@[simp] theorem tool_polygon_ne_arrow : (Tool.polygon = Tool.arrow) = False := by simp

@[simp] theorem freshId_zero : "u" ++ toString 0 = "u0" := rfl

@[simp] theorem croppedSrc_img : "cropped:" ++ "img" = "cropped:img" := rfl

/-!  Claim C1 — undo after a layer resize.  The scenario is evaluated step
by step, each event handler application reduced to an explicit state. -/

/-- The freshly loaded scene of the C1 scenario: one image layer, pencil
tool active (the component's initial tool). -/
def sC1 : EState := { layers := [layerL] }

/-- The pencil path created at (30,20). -/
def pathA : DrawObj :=
  { id := "u0", kind := DKind.path, points := [⟨30, 20⟩], stroke := "#000000",
    fill := "transparent", fillMode := FillMode.stroke, thickness := 6, dashed := false }

/-- The path after the stroke reaches (40,22). -/
def pathAB : DrawObj := { pathA with points := [⟨30, 20⟩, ⟨40, 22⟩] }

/-- The serialized form of layerL. -/
def serL : SerLayer :=
  { id := "L", x := 0, y := 0, w := 100, h := 50, crop := none, img := layerL.img }

/-- The snapshot of the one-layer, no-draws scene. -/
def snapA : Snap := { layers := [serL], draws := [], scale := 1, offset := ⟨0, 0⟩ }

/-- State after the pencil pointer-down at (30,20). -/
def sC1a : EState :=
  { layers := [{ layerL with selected := true }], draws := [pathA],
    selectedDrawId := some "u0", undoStack := [snapA],
    dragStart := some ⟨30, 20⟩, lastMove := some ⟨30, 20⟩, nextId := 1 }

/-- State after the pencil move to (40,22). -/
def sC1b : EState := { sC1a with draws := [pathAB], lastMove := some ⟨40, 22⟩ }

/-- State after the pencil pointer-up. -/
def sC1c : EState := { sC1b with dragStart := none, lastMove := none }

/-- State after the pointer-down on the layer's se handle with the
aspect-lock modifier held. -/
def sC1d : EState :=
  { sC1c with
    selectedLayerId := some "L", selectedDrawId := none,
    layerResize := some
      { layerId := "L", handle := Handle.se, start := ⟨100, 50⟩,
        orig := ⟨0, 0, 100, 50⟩, keepRatio := true } }

/-- State after the resize drag to (120,60): dx = 20 wins the aspect lock,
so the layer becomes 120 × (120 / (100/50)) = 120 × 60. -/
def sC1e : EState :=
  { sC1d with layers := [{ layerL with selected := true, w := 120, h := 60 }] }

/-- The snapshot finalizePointer pushes at resize pointer-up: it already
holds the POST-resize layer rectangle. -/
def snapB : Snap :=
  { layers := [{ id := "L", x := 0, y := 0, w := 120, h := 60, crop := none, img := layerL.img }],
    draws := [pathAB], scale := 1, offset := ⟨0, 0⟩ }

/-- State after the resize pointer-up. -/
def sC1f : EState :=
  { sC1e with layerResize := none, undoStack := [snapA, snapB], redoStack := [] }

/-- State after the single undo: the popped checkpoint is snapB, the
post-resize snapshot. -/
def sC1g : EState :=
  { layers := [{ layerL with w := 120, h := 60 }], draws := [pathAB],
    undoStack := [snapA], redoStack := [snapB], nextId := 1 }

theorem sC1_stepA : onPointerDown ⟨30, 20⟩ false sC1 = sC1a := by
  norm_num [onPointerDown, sC1, sC1a, layerL, pathA, snapA, serL, screenToWorld, hitTest,
    findLast?, drawHitB, layerHitB, bboxOf, lookupTargetLayer, layerHandleAtPoint, clamp,
    selectOnlyLayer, pdAfterResize, pdHandleAB, pdTools, pushUndo, snapshot, serializeLayers,
    freshIdStr, List.find?]

theorem sC1_stepB : onPointerMove ⟨40, 22⟩ sC1a = sC1b := by
  norm_num [onPointerMove, sC1a, sC1b, layerL, pathA, pathAB, screenToWorld, pmCrop,
    pmHandleDrag, pmLayerResize, pmPencil, Option.orElse, Option.getD]

theorem sC1_stepC : finalizePointer sC1b = sC1c := by
  norm_num [finalizePointer, sC1b, sC1c, sC1a]

theorem sC1_stepD : onPointerDown ⟨100, 50⟩ true sC1c = sC1d := by
  norm_num [onPointerDown, sC1c, sC1b, sC1a, sC1d, layerL, pathA, pathAB, screenToWorld,
    hitTest, findLast?, drawHitB, layerHitB, bboxOf, lookupTargetLayer, layerHandleAtPoint,
    clamp, selectOnlyLayer, List.find?]

theorem sC1_stepE : onPointerMove ⟨120, 60⟩ sC1d = sC1e := by
  norm_num [onPointerMove, sC1d, sC1c, sC1b, sC1a, sC1e, layerL, pathA, pathAB, screenToWorld,
    pmCrop, pmHandleDrag, pmLayerResize, resizeLayerRect, Option.orElse, Option.getD]

theorem sC1_stepF : finalizePointer sC1e = sC1f := by
  norm_num [finalizePointer, sC1e, sC1d, sC1c, sC1b, sC1a, sC1f, layerL, pathA, pathAB,
    pushUndo, snapshot, serializeLayers, snapA, snapB, serL]

theorem sC1_stepG : undo sC1f = sC1g := by
  norm_num [undo, sC1f, sC1e, sC1d, sC1c, sC1b, sC1a, sC1g, layerL, pathA, pathAB,
    restoreState, snapshot, serializeLayers, snapA, snapB, serL, List.getLast?]

/-- Claim C1 is refuted by the code: the resize checkpoint is pushed at
pointer-up, after the resize, so the snapshot it stores is the
post-resize state: a single undo leaves the layer at its resized display
rectangle (0,0,120,60) instead of the pre-resize (0,0,100,50).  The
freehand path is indeed unchanged. -/
theorem resize_undo_keeps_post_resize_rect :
    (undo (finalizePointer (onPointerMove ⟨120, 60⟩
      (onPointerDown ⟨100, 50⟩ true
        (finalizePointer (onPointerMove ⟨40, 22⟩
          (onPointerDown ⟨30, 20⟩ false sC1))))))).layers.map
        (fun L => (L.x, L.y, L.w, L.h)) = [((0 : ℚ), 0, 120, 60)] ∧
    sC1.layers.map (fun L => (L.x, L.y, L.w, L.h)) = [((0 : ℚ), 0, 100, 50)] ∧
    (undo (finalizePointer (onPointerMove ⟨120, 60⟩
      (onPointerDown ⟨100, 50⟩ true
        (finalizePointer (onPointerMove ⟨40, 22⟩
          (onPointerDown ⟨30, 20⟩ false sC1))))))).draws.map
        (fun d => d.points) = [[⟨30, 20⟩, ⟨40, 22⟩]] := by
  rw [sC1_stepA, sC1_stepB, sC1_stepC, sC1_stepD, sC1_stepE, sC1_stepF, sC1_stepG]
  refine ⟨?_, ?_, ?_⟩ <;> norm_num [sC1g, sC1, layerL, pathAB, pathA]

/-!  Claim C2 — selection exclusivity. -/

/-- One layer in the scene, eraser tool active, nothing selected. -/
def sC2 : EState := { layers := [layerL], tool := Tool.eraser }

/-- The eraser path created at (30,20). -/
def eraserPath : DrawObj :=
  { id := "u0", kind := DKind.path, points := [⟨30, 20⟩], stroke := "#000",
    fill := "transparent", fillMode := FillMode.stroke, thickness := 6,
    dashed := false, eraser := true }

/-- The state after the eraser pointer-down: the resize block selected the
layer, the eraser branch then selected the new path WITHOUT clearing the
layer selection. -/
def sC2r : EState :=
  { layers := [{ layerL with selected := true }], draws := [eraserPath],
    selectedLayerId := some "L", selectedDrawId := some "u0",
    undoStack := [snapA], tool := Tool.eraser,
    dragStart := some ⟨30, 20⟩, lastMove := some ⟨30, 20⟩, nextId := 1 }

theorem sC2_step : onPointerDown ⟨30, 20⟩ false sC2 = sC2r := by
  norm_num [onPointerDown, sC2, sC2r, layerL, eraserPath, snapA, serL, screenToWorld,
    hitTest, findLast?, drawHitB, layerHitB, bboxOf, lookupTargetLayer, layerHandleAtPoint,
    clamp, selectOnlyLayer, pdAfterResize, pdHandleAB, pdTools, pushUndo, snapshot,
    serializeLayers, freshIdStr, List.find?]

/-- Claim C2 is refuted by the code: an eraser pointer-down over a layer
first routes through the resize block, which selects the layer
(selectOnlyLayer), and the eraser branch then sets selectedDrawId without
clearing selectedLayerId (the pencil branch does clear it) — leaving BOTH
ids non-null.  The freshly created eraser path also never gets its
selected flag set, so the non-null selectedDrawId matches no
selected-flagged entity. -/
theorem eraser_down_leaves_both_selections :
    (onPointerDown ⟨30, 20⟩ false sC2).selectedLayerId = some "L" ∧
    (onPointerDown ⟨30, 20⟩ false sC2).selectedDrawId = some "u0" ∧
    (onPointerDown ⟨30, 20⟩ false sC2).draws.map (fun d => d.selected) = [false] := by
  rw [sC2_step]
  refine ⟨rfl, rfl, ?_⟩
  norm_num [sC2r, eraserPath]

/-!  Claim C5 — degenerate crop box. -/

/-- A pending zero-size crop box on the selected layer, as produced by a
crop-tool pointer-down in empty-box state with no subsequent drag. -/
def sC5 : EState :=
  { layers := [layerL], tool := Tool.crop, selectedLayerId := some "L",
    cropBox := some ⟨10, 10, 0, 0⟩ }

/-- The 1×1 layer the degenerate crop commit produces. -/
def croppedL : Layer :=
  { id := "L", img := { src := "cropped:img", width := 1, height := 1 },
    x := 10, y := 10, w := 1, h := 1 }

/-- The state applyCrop leaves behind: the layer replaced by a 1×1 raster
at (10,10). -/
def sC5r : EState :=
  { layers := [croppedL], undoStack := [snapA], tool := Tool.move }

theorem sC5_step : applyCrop sC5 = sC5r := by
  norm_num [applyCrop, sC5, sC5r, croppedL, layerL, croppedLayer, jsRound, pushUndo,
    snapshot, serializeLayers, snapA, serL, List.find?]

/-- Claim C5 is refuted by the code: CollageEditor's applyCrop has no
minimum-size guard (unlike the older ImageEditor evolution), so a pending
box of width and height 0 is NOT discarded: applyCrop pushes an undo
snapshot and replaces the 100×50 layer with a max(1, round(0)) = 1 pixel
square at (10,10). -/
theorem degenerate_crop_commits :
    (applyCrop sC5).layers.map (fun L => (L.x, L.y, L.w, L.h)) = [((10 : ℚ), 10, 1, 1)] ∧
    sC5.layers.map (fun L => (L.x, L.y, L.w, L.h)) = [((0 : ℚ), 0, 100, 50)] ∧
    (applyCrop sC5).undoStack.length = sC5.undoStack.length + 1 := by
  rw [sC5_step]
  refine ⟨?_, ?_, ?_⟩ <;> norm_num [sC5r, sC5, croppedL, layerL, snapA]

/-!  Claim C8 — polygon checkpoints (counterexample part). -/

/-- An empty scene with the polygon tool active. -/
def sP0 : EState := { tool := Tool.polygon }

/-- The snapshot of the empty scene. -/
def snapE : Snap := { layers := [], draws := [], scale := 1, offset := ⟨0, 0⟩ }

/-- After the first polygon click at (10,10). -/
def sP1 : EState :=
  { tool := Tool.polygon, polyTemp := [⟨10, 10⟩], undoStack := [snapE] }

/-- After the second polygon click at (20,20): a SECOND checkpoint was
pushed. -/
def sP2 : EState :=
  { tool := Tool.polygon, polyTemp := [⟨10, 10⟩, ⟨20, 20⟩], undoStack := [snapE, snapE] }

theorem sP_step1 : onPointerDown ⟨10, 10⟩ false sP0 = sP1 := by
  norm_num [onPointerDown, sP0, sP1, snapE, screenToWorld, hitTest, findLast?,
    lookupTargetLayer, pdAfterResize, pdHandleAB, pdTools, pushUndo, snapshot,
    serializeLayers]

theorem sP_step2 : onPointerDown ⟨20, 20⟩ false sP1 = sP2 := by
  norm_num [onPointerDown, sP1, sP2, snapE, screenToWorld, hitTest, findLast?,
    lookupTargetLayer, pdAfterResize, pdHandleAB, pdTools, pushUndo, snapshot,
    serializeLayers]

/-- Claim C8 as stated is refuted by the code: the polygon branch calls
pushUndo on EVERY click, so the second click grows the undo stack from 1
to 2 entries while appending its vertex — the checkpoint is not pushed
only on the first click. -/
theorem second_polygon_click_pushes_checkpoint :
    (onPointerDown ⟨10, 10⟩ false sP0).undoStack.length = 1 ∧
    (onPointerDown ⟨20, 20⟩ false (onPointerDown ⟨10, 10⟩ false sP0)).undoStack.length = 2 ∧
    (onPointerDown ⟨20, 20⟩ false (onPointerDown ⟨10, 10⟩ false sP0)).polyTemp
      = [⟨10, 10⟩, ⟨20, 20⟩] := by
  rw [sP_step1, sP_step2]
  exact ⟨rfl, rfl, rfl⟩

/-!  Claim C4 — compositional crop arithmetic. -/

/-- Interpret a rectangle r given in the pixel space of a dw×dh raster
that displays the source region S, mapping it back into S's own source
space — the correspondence a crop commit establishes between its new
raster and the sub-rectangle of the original it rasterized. -/
def rectMap (S : Rect) (dw dh : ℚ) (r : Rect) : Rect :=
  ⟨S.x + (r.x / dw) * S.w,
   S.y + (r.y / dh) * S.h,
   (r.w / dw) * S.w,
   (r.h / dh) * S.h⟩

/-- Claim C4: applying a crop box b selects the source rectangle
srcX = base.x + (b.x/L.w)·base.w (and analogously for y, w, h), with base
the existing crop defaulting to the full source; the commit translates the
display rectangle by the box origin and sizes it to the new raster; and
cropping with b1 followed by cropping the result with b2 (in post-b1
display space) picks out, through the new raster's pixel-to-source
correspondence, exactly the source rectangle of the single composed crop
b1 ∘ b2 = (b1.x + b2.x, b1.y + b2.y, b2.w, b2.h) on the original layer.
The integrality hypotheses on b1 make Math.round the identity, which is
the claim's "up to rounding" caveat. -/
theorem crop_composition (L : Layer) (b1 b2 : Rect)
    (hw : L.w ≠ 0) (hh : L.h ≠ 0)
    (h1 : jsRound b1.w = b1.w) (h2 : 1 ≤ b1.w)
    (h3 : jsRound b1.h = b1.h) (h4 : 1 ≤ b1.h) :
    cropSrcRect L b1 =
      ⟨(cropBase L).x + (b1.x / L.w) * (cropBase L).w,
       (cropBase L).y + (b1.y / L.h) * (cropBase L).h,
       (b1.w / L.w) * (cropBase L).w,
       (b1.h / L.h) * (cropBase L).h⟩ ∧
    (croppedLayer L b1).x = L.x + b1.x ∧
    (croppedLayer L b1).y = L.y + b1.y ∧
    (croppedLayer L b1).w = b1.w ∧
    (croppedLayer L b1).h = b1.h ∧
    (croppedLayer L b1).crop = none ∧
    rectMap (cropSrcRect L b1) (croppedLayer L b1).img.width (croppedLayer L b1).img.height
        (cropSrcRect (croppedLayer L b1) b2) =
      cropSrcRect L ⟨b1.x + b2.x, b1.y + b2.y, b2.w, b2.h⟩ := by
  have hmw : max (1 : ℚ) (jsRound b1.w) = b1.w := by rw [h1]; exact max_eq_right h2
  have hmh : max (1 : ℚ) (jsRound b1.h) = b1.h := by rw [h3]; exact max_eq_right h4
  have hb1w : b1.w ≠ 0 := by
    have : (0 : ℚ) < b1.w := lt_of_lt_of_le one_pos h2
    exact ne_of_gt this
  have hb1h : b1.h ≠ 0 := by
    have : (0 : ℚ) < b1.h := lt_of_lt_of_le one_pos h4
    exact ne_of_gt this
  refine ⟨rfl, rfl, rfl, ?_, ?_, rfl, ?_⟩
  · simp [croppedLayer, hmw]
  · simp [croppedLayer, hmh]
  · simp only [croppedLayer, rectMap, cropSrcRect, cropBase, Option.getD_none, hmw, hmh,
      Rect.mk.injEq]
    refine ⟨?_, ?_, ?_, ?_⟩ <;> (field_simp; ring)

/-- The first crop box of the composition witness. -/
def b1W : Rect := ⟨10, 10, 40, 20⟩

/-- The second crop box of the composition witness, in post-b1W display
space. -/
def b2W : Rect := ⟨5, 5, 10, 10⟩

/-- Witness for C4: the composition identity evaluated on the concrete
layer layerL with boxes b1W and b2W. -/
theorem crop_composition_witness :
    rectMap (cropSrcRect layerL b1W) (croppedLayer layerL b1W).img.width
        (croppedLayer layerL b1W).img.height (cropSrcRect (croppedLayer layerL b1W) b2W) =
      cropSrcRect layerL ⟨b1W.x + b2W.x, b1W.y + b2W.y, b2W.w, b2W.h⟩ :=
  (crop_composition layerL b1W b2W (by norm_num [layerL]) (by norm_num [layerL])
    (by norm_num [b1W, jsRound]) (by norm_num [b1W])
    (by norm_num [b1W, jsRound]) (by norm_num [b1W])).2.2.2.2.2.2

/-!  Claim C6 — restore of invalid snapshots. -/

/-- A scene with one draw object, non-default viewport and a selection. -/
def sC6 : EState :=
  { draws := [rectR1], scale := 2, offset := ⟨5, 5⟩, selectedDrawId := some "r1" }

/-- A structurally incomplete snapshot: well-formed JSON with a layers
array but NO draws, scale or offset fields. -/
def jMissingDraws : Json := Json.obj [("layers", Json.arr [])]

/-- Claim C6 is refuted on the missing-fields half: restoring a snapshot
whose draws/scale/offset fields are missing is NOT aborted — the restore
completes, wiping the draw collection to [] and resetting scale, offset
and the selection.  Only the prior draws being non-empty shows actual
mutation. -/
theorem restore_missing_fields_mutates :
    restoreStateJson jMissingDraws sC6 =
      some { sC6 with
             layers := [], draws := [], scale := 1, offset := ⟨0, 0⟩,
             selectedLayerId := none, selectedDrawId := none } ∧
    sC6.draws ≠ [] := by
  exact ⟨rfl, by simp [sC6]⟩

/-- Claim C6 amended: the restore throws before ANY mutation when the
snapshot is malformed JSON (never reaching restoreState), when the parsed
value is null, a number or a boolean (member access / for-of TypeError),
or when the layers field is missing; but missing draws, scale and offset
fields are NOT treated as invalid — they are defaulted to [], 1 and (0,0)
and the restore replaces the scene in full (all-or-nothing either way). -/
theorem restore_invalid_aborts_but_defaults_missing (s : EState) (q : ℚ) (b : Bool)
    (fs : List (String × Json)) (hfs : fs.lookup "layers" = none) :
    restoreStateJson Json.null s = none ∧
    restoreStateJson (Json.num q) s = none ∧
    restoreStateJson (Json.bool b) s = none ∧
    restoreStateJson (Json.obj fs) s = none ∧
    restoreStateJson (Json.obj [("layers", Json.arr [])]) s =
      some { s with
             layers := [], draws := [], scale := 1, offset := ⟨0, 0⟩,
             selectedLayerId := none, selectedDrawId := none } := by
  refine ⟨rfl, rfl, rfl, ?_, rfl⟩
  simp [restoreStateJson, jsGetField, hfs, jsIterate]

/-- Witness for the amended C6: the empty JSON object (no layers field)
aborts the restore of the concrete scene sC6 with no mutation. -/
theorem restore_invalid_witness :
    restoreStateJson (Json.obj []) sC6 = none :=
  (restore_invalid_aborts_but_defaults_missing sC6 0 true [] rfl).2.2.2.1

/-!  Claim C8 amended — every polygon click checkpoints, yet one undo
after the commit still reverts the whole polygon. -/

/-- The length-0 conditional of the polygon accumulator update is a plain
append. -/
theorem polyTemp_append (l : List Vec2) (p : Vec2) :
    (if l.length = 0 then [p] else l ++ [p]) = l ++ [p] := by
  cases l <;> simp

/-- Claim C8 amended: in a scene whose clicks reach the polygon branch (no
layers, no line/arrow draws to capture the pointer first) and whose undo
stack is below the cap, EVERY polygon click pushes one checkpoint while
appending its vertex; all those checkpoints equal the pre-polygon snapshot
(the accumulator is not serialized and the draws only change on commit),
so after an Enter commit a single undo restores the pre-polygon draw
collection. -/
theorem polygon_click_always_checkpoints (s : EState) (m : Vec2)
    (ht : s.tool = Tool.polygon) (hpan : s.panning = false) (hl : s.layers = [])
    (hd : ∀ D ∈ s.draws, D.kind ≠ DKind.line ∧ D.kind ≠ DKind.arrow)
    (hu : s.undoStack.length < 60) :
    (onPointerDown m false s).polyTemp = s.polyTemp ++ [screenToWorld s m] ∧
    (onPointerDown m false s).undoStack = s.undoStack ++ [snapshot s] ∧
    snapshot (onPointerDown m false s) = snapshot s ∧
    (3 ≤ s.polyTemp.length →
      (onKeyEnter s).draws = s.draws ++
        [{ id := freshIdStr s, kind := DKind.polygon, points := s.polyTemp,
           stroke := s.primary, fill := s.secondary, fillMode := s.fillMode,
           thickness := s.thickness, dashed := s.strokeDashed }] ∧
      (undo (onKeyEnter s)).draws = s.draws) := by
  have hstep : onPointerDown m false s =
      { pushUndo s with
        polyTemp := s.polyTemp ++ [screenToWorld s m],
        selectedDrawId := none, selectedLayerId := none } := by
    simp only [onPointerDown, hpan, Bool.false_eq_true, if_false,
      lookupTargetLayer_none s hl, ht, tool_polygon_ne_crop, ite_false, pdAfterResize,
      pdHandleAB_none s (screenToWorld s m) hd, pdTools, polyTemp_append]
  refine ⟨?_, ?_, ?_, fun h3 => ?_⟩
  · rw [hstep]
  · rw [hstep]
    exact pushUndo_undoStack_of_lt s hu
  · rw [hstep]
    rfl
  · have hEnter : onKeyEnter s =
        { pushUndo s with
          nextId := s.nextId + 1,
          draws := s.draws ++
            [{ id := freshIdStr s, kind := DKind.polygon, points := s.polyTemp,
               stroke := s.primary, fill := s.secondary, fillMode := s.fillMode,
               thickness := s.thickness, dashed := s.strokeDashed }],
          polyTemp := [],
          selectedDrawId := some (freshIdStr s),
          selectedLayerId := none } := by
      unfold onKeyEnter
      rw [if_pos ⟨ht, h3⟩]
      rfl
    refine ⟨by rw [hEnter], ?_⟩
    have hstack : (onKeyEnter s).undoStack = s.undoStack ++ [snapshot s] := by
      rw [hEnter]
      exact pushUndo_undoStack_of_lt s hu
    simp only [undo, hstack, List.getLast?_concat]
    rfl

/-- The concrete state of the C8 witness: polygon tool, three accumulated
vertices, empty scene. -/
def sPW : EState := { tool := Tool.polygon, polyTemp := [⟨1, 1⟩, ⟨2, 2⟩, ⟨3, 3⟩] }

/-- Witness for the amended C8 at sPW with a click at (4,4). -/
theorem polygon_click_always_checkpoints_witness :
    (onPointerDown ⟨4, 4⟩ false sPW).polyTemp = sPW.polyTemp ++ [screenToWorld sPW ⟨4, 4⟩] ∧
    (onPointerDown ⟨4, 4⟩ false sPW).undoStack = sPW.undoStack ++ [snapshot sPW] ∧
    snapshot (onPointerDown ⟨4, 4⟩ false sPW) = snapshot sPW ∧
    (3 ≤ sPW.polyTemp.length →
      (onKeyEnter sPW).draws = sPW.draws ++
        [{ id := freshIdStr sPW, kind := DKind.polygon, points := sPW.polyTemp,
           stroke := sPW.primary, fill := sPW.secondary, fillMode := sPW.fillMode,
           thickness := sPW.thickness, dashed := sPW.strokeDashed }] ∧
      (undo (onKeyEnter sPW)).draws = sPW.draws) :=
  polygon_click_always_checkpoints sPW ⟨4, 4⟩ rfl rfl rfl (by simp [sPW]) (by norm_num [sPW])

end Collage
